import Mathlib

/-!
Verification of the tiled-inference / multi-scale detection-merging engine of
the Vision-Pro repository (`scripts/modules/supervision_wrapper.py` and
`scripts/modules/small_object_config.py`).

Python floats are embedded as rationals (`ℚ`), Python ints as `ℤ` (with `//`
as `Int.fdiv`, Python's floor division) or `ℕ` where the values are counts.
Fallible Python code is embedded as `Except String`; the universal
`try/except` blocks of the wrapper become total functions that map an inner
exception to the degraded result dictionary actually returned by the source.
The external `supervision` library calls (`sv.InferenceSlicer`,
`sv.Detections.with_nms`) are not part of the repository; where a claim
depends on them they are modelled from the specification (§4.1, §4.3) and
marked as such, while the per-tile detector callback stays opaque (an
`Except`-valued parameter).
-/

namespace VisionPro

/-- One detection: box corners, confidence and class, as in the spec's data
model (`{box: (x1,y1,x2,y2), confidence, class_id}`); floats become `ℚ`. -/
structure Detection where
  x1 : ℚ
  y1 : ℚ
  x2 : ℚ
  y2 : ℚ
  confidence : ℚ
  classId : ℤ
deriving DecidableEq

/-- Modelled from the spec: box area of an axis-aligned box (geometry
utilities, §2; the concrete computation lives in the external library). -/
def boxArea (d : Detection) : ℚ :=
  (d.x2 - d.x1) * (d.y2 - d.y1)

/-- Modelled from the spec: intersection area of two axis-aligned boxes,
zero when they do not overlap (§4.3). -/
def interArea (a b : Detection) : ℚ :=
  max 0 (min a.x2 b.x2 - max a.x1 b.x1) * max 0 (min a.y2 b.y2 - max a.y1 b.y1)

/-- Modelled from the spec: IoU = intersection-area / union-area, with
union = area(a) + area(b) - intersection (§4.3).  `ℚ` division by zero is
zero, so degenerate zero-area pairs get IoU 0. -/
def iou (a b : Detection) : ℚ :=
  let i := interArea a b
  i / (boxArea a + boxArea b - i)

/-- The spec's overlap-suppression modes (§4.3). -/
inductive OverlapMode
  | NONE
  | CLASS_AWARE_NMS
  | CLASS_AGNOSTIC_NMS
deriving DecidableEq

/-- Modelled from the spec: detection `b` is suppressed by a kept detection
`a` when their IoU exceeds the threshold — restricted to equal `class_id`
for `CLASS_AWARE_NMS`, across all classes for `CLASS_AGNOSTIC_NMS` (§4.3). -/
def suppresses (m : OverlapMode) (t : ℚ) (a b : Detection) : Bool :=
  match m with
  | .NONE => false
  | .CLASS_AWARE_NMS => decide (a.classId = b.classId) && decide (t < iou a b)
  | .CLASS_AGNOSTIC_NMS => decide (t < iou a b)

/-- The "sort by confidence descending" order of §4.3: `a` comes before `b`
when `b`'s confidence is at most `a`'s. -/
def confGE (a b : Detection) : Prop :=
  b.confidence ≤ a.confidence

instance : DecidableRel confGE :=
  fun a b => inferInstanceAs (Decidable (b.confidence ≤ a.confidence))

instance : IsTotal Detection confGE :=
  ⟨fun a b => le_total b.confidence a.confidence⟩

instance : IsTrans Detection confGE :=
  ⟨fun _ _ _ hab hbc => le_trans hbc hab⟩

/-- Modelled from the spec: the stable confidence-descending sort applied to
a `DetectionSet` before suppression (§4.3). -/
def sortByConf (l : List Detection) : List Detection :=
  List.insertionSort confGE l

/-- Modelled from the spec: one greedy suppression pass over a
confidence-sorted list — keep the head, drop every later detection the head
suppresses, recurse on the survivors (§4.3).  The fuel argument (an upper
bound on the list length) only makes the recursion structural. -/
def nmsRunAux (f : Detection → Detection → Bool) : ℕ → List Detection → List Detection
  | _, [] => []
  | 0, _ :: _ => []
  | n + 1, d :: rest => d :: nmsRunAux f n (rest.filter (fun e => !(f d e)))

/-- Modelled from the spec: greedy NMS over a confidence-sorted list (§4.3). -/
def nmsRun (f : Detection → Detection → Bool) (l : List Detection) : List Detection :=
  nmsRunAux f l.length l

/-- Modelled from the spec: the Overlap Resolver contract
`merge(detections, iou_threshold, mode)` — passthrough for `NONE`,
otherwise confidence-descending sort followed by greedy suppression (§4.3).
This is the behaviour the source delegates to the external
`supervision` NMS. -/
def merge (S : List Detection) (t : ℚ) (m : OverlapMode) : List Detection :=
  match m with
  | .NONE => S
  | _ => nmsRun (suppresses m t) (sortByConf S)

/-- Modelled from the spec: `sv.Detections.with_nms(threshold)` as called by
`_merge_multi_scale_detections` — class-aware NMS at the given threshold
(the library default `class_agnostic=False`). -/
def withNms (l : List Detection) (t : ℚ) : List Detection :=
  merge l t .CLASS_AWARE_NMS

theorem nmsRunAux_nil (f : Detection → Detection → Bool) (n : ℕ) :
    nmsRunAux f n [] = [] := by
  cases n <;> rfl

theorem nmsRunAux_fuel_irrel (f : Detection → Detection → Bool) :
    ∀ (n : ℕ) (m : ℕ) (l : List Detection), l.length ≤ n → l.length ≤ m →
      nmsRunAux f n l = nmsRunAux f m l := by
  intro n
  induction n with
  | zero =>
    intro m l hn _
    have : l = [] := List.length_eq_zero.mp (Nat.le_zero.mp hn)
    subst this
    simp [nmsRunAux_nil]
  | succ n ih =>
    intro m l hn hm
    cases l with
    | nil => simp [nmsRunAux_nil]
    | cons d rest =>
      cases m with
      | zero => simp at hm
      | succ m =>
        simp only [nmsRunAux]
        have hrest : rest.length ≤ n := by simpa using hn
        have hrest' : rest.length ≤ m := by simpa using hm
        have hf : (rest.filter (fun e => !(f d e))).length ≤ rest.length :=
          List.length_filter_le _ _
        exact congrArg (d :: ·) (ih m _ (le_trans hf hrest) (le_trans hf hrest'))

theorem nmsRunAux_sublist (f : Detection → Detection → Bool) :
    ∀ (n : ℕ) (l : List Detection), l.length ≤ n → List.Sublist (nmsRunAux f n l) l := by
  intro n
  induction n with
  | zero =>
    intro l hn
    have : l = [] := List.length_eq_zero.mp (Nat.le_zero.mp hn)
    subst this
    simp [nmsRunAux_nil]
  | succ n ih =>
    intro l hn
    cases l with
    | nil => simp [nmsRunAux_nil]
    | cons d rest =>
      simp only [nmsRunAux]
      have hrest : rest.length ≤ n := by simpa using hn
      have hf : (rest.filter (fun e => !(f d e))).length ≤ rest.length :=
        List.length_filter_le _ _
      exact (List.Sublist.trans (ih _ (le_trans hf hrest))
        (List.filter_sublist _)).cons₂ d

theorem nmsRunAux_idem (f : Detection → Detection → Bool) :
    ∀ (n : ℕ) (l : List Detection), l.length ≤ n →
      nmsRunAux f n (nmsRunAux f n l) = nmsRunAux f n l := by
  intro n
  induction n with
  | zero =>
    intro l hn
    have : l = [] := List.length_eq_zero.mp (Nat.le_zero.mp hn)
    subst this
    simp [nmsRunAux_nil]
  | succ n ih =>
    intro l hn
    cases l with
    | nil => simp [nmsRunAux_nil]
    | cons d rest =>
      simp only [nmsRunAux]
      have hrest : rest.length ≤ n := by simpa using hn
      have hflen : (rest.filter (fun e => !(f d e))).length ≤ n :=
        le_trans (List.length_filter_le _ _) hrest
      have hkeep :
          (nmsRunAux f n (rest.filter (fun e => !(f d e)))).filter
            (fun e => !(f d e)) = nmsRunAux f n (rest.filter (fun e => !(f d e))) := by
        apply List.filter_eq_self.mpr
        intro a ha
        have hmem : a ∈ rest.filter (fun e => !(f d e)) :=
          (nmsRunAux_sublist f n _ hflen).subset ha
        exact (List.mem_filter.mp hmem).2
      rw [hkeep, ih _ hflen]

theorem nmsRun_sublist (f : Detection → Detection → Bool) (l : List Detection) :
    List.Sublist (nmsRun f l) l :=
  nmsRunAux_sublist f l.length l le_rfl

theorem nmsRun_idem (f : Detection → Detection → Bool) (l : List Detection) :
    nmsRun f (nmsRun f l) = nmsRun f l := by
  unfold nmsRun
  have hlen : (nmsRunAux f l.length l).length ≤ l.length :=
    (nmsRunAux_sublist f l.length l le_rfl).length_le
  rw [nmsRunAux_fuel_irrel f _ l.length _ le_rfl hlen]
  exact nmsRunAux_idem f l.length l le_rfl

theorem sortByConf_sorted (l : List Detection) :
    List.Sorted confGE (sortByConf l) :=
  List.sorted_insertionSort confGE l

theorem sortByConf_of_sorted {l : List Detection} (h : List.Sorted confGE l) :
    sortByConf l = l :=
  List.Sorted.insertionSort_eq h

theorem nms_sort_idem (f : Detection → Detection → Bool) (S : List Detection) :
    nmsRun f (sortByConf (nmsRun f (sortByConf S))) = nmsRun f (sortByConf S) := by
  have hsorted : List.Sorted confGE (nmsRun f (sortByConf S)) :=
    List.Pairwise.sublist (nmsRun_sublist f (sortByConf S)) (sortByConf_sorted S)
  rw [sortByConf_of_sorted hsorted, nmsRun_idem]

/-- `SupervisionWrapper._estimate_slice_count`, per-axis factor: with
`step = slice_dim - overlap_dim`, the count is
`max(1, (dim - overlap_dim + step - 1) // step)` (Python floor division,
`Int.fdiv`).  `cols` instantiates it with the width, `rows` with the
height. -/
def axisSliceCount (dim sliceD overlapD : ℤ) : ℤ :=
  let step := sliceD - overlapD
  max 1 ((dim - overlapD + step - 1).fdiv step)

/-- `SupervisionWrapper._estimate_slice_count` as the Python call behaves:
`rows * cols`, raising `ZeroDivisionError` when a step size is zero (Python
`//` by zero raises; for negative steps it floor-divides normally).
`image_shape` is `(height, width)`, `slice_wh`/`overlap_wh` are
`(width, height)` pairs. -/
def estimateSliceCountExc (imageShape sliceWh overlapWh : ℤ × ℤ) :
    Except String ℤ :=
  if sliceWh.1 - overlapWh.1 = 0 ∨ sliceWh.2 - overlapWh.2 = 0 then
    .error "integer division or modulo by zero"
  else
    .ok (axisSliceCount imageShape.1 sliceWh.2 overlapWh.2 *
      axisSliceCount imageShape.2 sliceWh.1 overlapWh.1)

/-- The result dictionary of `SupervisionWrapper.detect_small_objects`,
restricted to the fields the claims are about (`detections`,
`detection_count`, `statistics.slice_config.total_slices`, `error`). -/
structure TiledResult where
  detections : Option (List Detection)
  detectionCount : ℕ
  totalSlices : Option ℤ
  error : Option String
deriving DecidableEq

/-- The `except` branch of `detect_small_objects`: `detections=None`,
`detection_count=0`, and the exception's message under `error`. -/
def degradedResult (e : String) : TiledResult :=
  { detections := none, detectionCount := 0, totalSlices := none, error := some e }

/-- The `try` body of `detect_small_objects`: run the external slicer (an
opaque `Except`-valued outcome covering tiling, the detector callback and
the library's internal overlap filter), then compute the statistics, which
call `_estimate_slice_count`.  Any exception propagates to the handler. -/
def detectBody (imageShape sliceWh overlapWh : ℤ × ℤ)
    (slicerOutcome : Except String (List Detection)) :
    Except String TiledResult := do
  let dets ← slicerOutcome
  let n ← estimateSliceCountExc imageShape sliceWh overlapWh
  pure { detections := some dets, detectionCount := dets.length,
         totalSlices := some n, error := none }

/-- `SupervisionWrapper.detect_small_objects`: the whole body sits in
`try/except Exception`, so every inner exception is converted to the
degraded result dictionary and the method always returns normally. -/
def detectSmallObjects (imageShape sliceWh overlapWh : ℤ × ℤ)
    (slicerOutcome : Except String (List Detection)) : TiledResult :=
  match detectBody imageShape sliceWh overlapWh slicerOutcome with
  | .ok r => r
  | .error e => degradedResult e

/-- The Python *call* `wrapper.detect_small_objects(...)` seen from the
caller: thanks to the universal handler it never raises, i.e. it is always
`.ok` of the returned dictionary. -/
def detectSmallObjectsCall (imageShape sliceWh overlapWh : ℤ × ℤ)
    (slicerOutcome : Except String (List Detection)) :
    Except String TiledResult :=
  .ok (detectSmallObjects imageShape sliceWh overlapWh slicerOutcome)

/-- `SupervisionWrapper._merge_multi_scale_detections`: empty input list
gives the empty set, a one-element list is returned unchanged, otherwise
the non-empty per-scale sets are concatenated and a single
`with_nms(threshold=iou_threshold)` is applied. -/
def mergeMultiScaleDetections (detectionsList : List (List Detection))
    (iouThreshold : ℚ) : List Detection :=
  match detectionsList with
  | [] => []
  | [d] => d
  | _ =>
    let allXyxy := detectionsList.filter (fun d => !d.isEmpty)
    if allXyxy.isEmpty then []
    else withNms allXyxy.flatten iouThreshold

/-- The three hard-coded scale configurations of
`detect_with_multiple_scales`, as `(slice_wh, overlap_wh)` pairs. -/
def scaleConfigs : List ((ℤ × ℤ) × (ℤ × ℤ)) :=
  [((320, 320), (64, 64)), ((640, 640), (128, 128)), ((960, 960), (192, 192))]

/-- The result dictionary of `detect_with_multiple_scales`, restricted to
the claim-relevant fields.  `scaleResults` embeds
`statistics['scale_results']`: one entry (config, detection count) per
scale whose `detections` was not `None`. -/
structure MultiScaleResult where
  detections : Option (List Detection)
  detectionCount : ℕ
  scaleResults : List (((ℤ × ℤ) × (ℤ × ℤ)) × ℕ)
  error : Option String
deriving DecidableEq

/-- `SupervisionWrapper.detect_with_multiple_scales`: run
`detect_small_objects` once per scale config (the per-scale slicer outcome
is the opaque parameter, keyed by config), collect the per-scale sets whose
`detections` is not `None`, and either return the no-detections dictionary
(empty `scale_results`, no error field) or merge all collected sets with
`_merge_multi_scale_detections` at the caller-supplied `iou`. -/
def detectWithMultipleScales (imageShape : ℤ × ℤ) (iouThreshold : ℚ)
    (slicerOutcome : (ℤ × ℤ) × (ℤ × ℤ) → Except String (List Detection)) :
    MultiScaleResult :=
  let results := scaleConfigs.map
    (fun c => (c, detectSmallObjects imageShape c.1 c.2 (slicerOutcome c)))
  let allDetections := results.filterMap (fun r => r.2.detections)
  let scaleResults := results.filterMap
    (fun r => r.2.detections.map (fun _ => (r.1, r.2.detectionCount)))
  if allDetections.isEmpty then
    { detections := none, detectionCount := 0, scaleResults := scaleResults,
      error := none }
  else
    let merged := mergeMultiScaleDetections allDetections iouThreshold
    { detections := some merged, detectionCount := merged.length,
      scaleResults := scaleResults, error := none }

/-- The return dictionary of `SupervisionWrapper.get_optimal_slice_config`:
recommended `slice_wh`, `overlap_wh` and the `estimated_slices` value
(whose computation could in principle raise, hence `Except`). -/
structure OptimalSliceConfig where
  sliceWh : ℤ × ℤ
  overlapWh : ℤ × ℤ
  estimatedSlices : Except String ℤ

/-- `SupervisionWrapper.get_optimal_slice_config`: three resolution buckets
chosen from `(height, width)`, then `_estimate_slice_count` on the chosen
pair.  The source performs no input validation whatsoever. -/
def getOptimalSliceConfig (imageShape : ℤ × ℤ) : OptimalSliceConfig :=
  let height := imageShape.1
  let width := imageShape.2
  let p : (ℤ × ℤ) × (ℤ × ℤ) :=
    if width ≤ 1920 ∧ height ≤ 1080 then ((640, 640), (64, 64))
    else if width ≤ 3840 ∧ height ≤ 2160 then ((800, 800), (128, 128))
    else ((1024, 1024), (256, 256))
  { sliceWh := p.1, overlapWh := p.2,
    estimatedSlices := estimateSliceCountExc imageShape p.1 p.2 }

/-- The `resolution_based` adaptive rules read by
`SmallObjectConfigManager.get_adaptive_config` (boundaries and recommended
pairs come from the YAML config, with the file's defaults). -/
structure AdaptiveRules where
  lowMaxWidth : ℤ
  lowSliceWh : ℤ × ℤ
  lowOverlapWh : ℤ × ℤ
  medMaxWidth : ℤ
  medSliceWh : ℤ × ℤ
  medOverlapWh : ℤ × ℤ
  highSliceWh : ℤ × ℤ
  highOverlapWh : ℤ × ℤ

/-- The `basic` section thresholds used by `get_adaptive_config`. -/
structure BasicConfig where
  confidenceThreshold : ℚ
  iouThreshold : ℚ

/-- The `SliceConfig` dataclass of `small_object_config.py`. -/
structure SliceConfig where
  sliceWh : ℤ × ℤ
  overlapWh : ℤ × ℤ
  confidenceThreshold : ℚ
  iouThreshold : ℚ
  description : String

/-- `SmallObjectConfigManager.get_adaptive_config`: the bucket is chosen by
comparing the *width* against the configured boundaries; the height only
appears in the description string. -/
def getAdaptiveConfig (rules : AdaptiveRules) (basic : BasicConfig)
    (imageShape : ℤ × ℤ) : SliceConfig :=
  let height := imageShape.1
  let width := imageShape.2
  let p : (ℤ × ℤ) × (ℤ × ℤ) :=
    if width ≤ rules.lowMaxWidth then (rules.lowSliceWh, rules.lowOverlapWh)
    else if width ≤ rules.medMaxWidth then (rules.medSliceWh, rules.medOverlapWh)
    else (rules.highSliceWh, rules.highOverlapWh)
  { sliceWh := p.1, overlapWh := p.2,
    confidenceThreshold := basic.confidenceThreshold,
    iouThreshold := basic.iouThreshold,
    description := "adaptive config (image size: " ++ toString width ++ "x"
      ++ toString height ++ ")" }

/-- A tile region `{x, y, w, h}` of the spec's data model. -/
structure TileRegion where
  x : ℕ
  y : ℕ
  w : ℕ
  h : ℕ
deriving DecidableEq

/-- Modelled from the spec: the external slicer's per-axis tile layout
(§4.1) — offsets `0, step, 2·step, …` while a nominal tile still ends
strictly inside the image, then one final tile clamped so that it ends
exactly at the image edge; when the tile is at least as large as the axis,
a single tile spanning the whole axis. Entries are `(offset, size)`. -/
def axisTiles (dim sliceD step : ℕ) : List (ℕ × ℕ) :=
  if dim ≤ sliceD then [(0, dim)]
  else
    (List.range ((dim - sliceD + step - 1) / step)).map
      (fun k => (k * step, sliceD)) ++ [(dim - sliceD, sliceD)]

/-- Modelled from the spec: the Tile Scheduler contract
`schedule(image_size, slice_wh, overlap_wh)` (§4.1) — the row-major grid of
per-axis tiles with step `slice_dim - overlap_dim`.  `image_shape` is
`(H, W)`; `slice_wh` and `overlap_wh` are `(w, h)` pairs. -/
def schedule (imageShape sliceWh overlapWh : ℕ × ℕ) : List TileRegion :=
  let rows := axisTiles imageShape.1 sliceWh.2 (sliceWh.2 - overlapWh.2)
  let cols := axisTiles imageShape.2 sliceWh.1 (sliceWh.1 - overlapWh.1)
  (rows.map (fun yh => cols.map
    (fun xw => TileRegion.mk xw.1 yh.1 xw.2 yh.2))).flatten

/-- Concrete detection used in counterexamples/witnesses: box
`(0,0,100,100)`, confidence `0.9`, class `0`. -/
def detA : Detection :=
  { x1 := 0, y1 := 0, x2 := 100, y2 := 100, confidence := 9/10, classId := 0 }

/-- Concrete detection used in counterexamples/witnesses: box
`(0,36,100,136)`, confidence `0.8`, class `0`.  Its IoU with `detA` is
`6400 / 13600 = 8/17 ≈ 0.47`, between `0.45` and `0.5`. -/
def detB : Detection :=
  { x1 := 0, y1 := 36, x2 := 100, y2 := 136, confidence := 8/10, classId := 0 }

/-- C1 (counterexample): the claim says a step-0 configuration
(`overlap_wh = slice_wh = (640,640)`) makes the tiled-detection entry point
raise `InvalidConfig`.  In the code the whole body of
`detect_small_objects` sits in `try/except Exception`, so the call returns
normally even if the inner pipeline raises — here both for an inner
exception (even one literally named "InvalidConfig") and for a slicer that
returns, in which case the zero-step `_estimate_slice_count` division
error is caught and recorded.  No `InvalidConfig` exception exists
anywhere in the repository. -/
theorem c1_invalid_config_not_raised :
    detectSmallObjectsCall (720, 1280) (640, 640) (640, 640)
        (Except.error "InvalidConfig") =
      Except.ok (degradedResult "InvalidConfig") ∧
    detectSmallObjectsCall (720, 1280) (640, 640) (640, 640)
        (Except.ok []) =
      Except.ok (degradedResult "integer division or modulo by zero") :=
  ⟨rfl, rfl⟩

/-- C1 (amended): for every slice configuration and every outcome of the
opaque slicing pipeline, the tiled-detection entry point
`detect_small_objects` returns normally (never raises any exception, so in
particular never `InvalidConfig`); and when the step size is zero on the
width axis the returned dictionary records an error (for step ≤ 0 nothing
is validated up front — the error, if any, arises inside and is caught). -/
theorem c1_entrypoint_never_raises (imageShape sliceWh overlapWh : ℤ × ℤ)
    (o : Except String (List Detection)) :
    (detectSmallObjectsCall imageShape sliceWh overlapWh o).isOk = true ∧
    (sliceWh.1 - overlapWh.1 = 0 →
      (detectSmallObjects imageShape sliceWh overlapWh o).error.isSome = true) := by
  refine ⟨rfl, fun h => ?_⟩
  cases o with
  | error e => rfl
  | ok dets =>
    simp [detectSmallObjects, detectBody, estimateSliceCountExc, h,
      degradedResult, Bind.bind, Except.bind]

/-- Witness for C1 (amended) at the concrete step-0 configuration
`slice_wh = overlap_wh = (640,640)` with a succeeding slicer. -/
theorem c1_entrypoint_never_raises_witness :
    (detectSmallObjectsCall (720, 1280) (640, 640) (640, 640)
      (Except.ok [])).isOk = true ∧
    (detectSmallObjects (720, 1280) (640, 640) (640, 640)
      (Except.ok [])).error.isSome = true :=
  ⟨(c1_entrypoint_never_raises (720, 1280) (640, 640) (640, 640)
      (Except.ok [])).1,
   (c1_entrypoint_never_raises (720, 1280) (640, 640) (640, 640)
      (Except.ok [])).2 (by decide)⟩

/-- C2 (counterexample): the claim says that with a detector raising on
every tile, multi-scale detection returns a non-empty diagnostics/error
record.  In the code every per-scale `detect_small_objects` call swallows
the error and returns `detections=None`, so `scale_results` stays empty
and the multi-scale `except` branch (the only place an `error` field is
set) is never reached: the returned record carries no diagnostics at
all. -/
theorem c2_multiscale_no_diagnostics :
    (detectWithMultipleScales (720, 1280) (45/100)
        (fun _ => Except.error "model failure")).scaleResults = [] ∧
    (detectWithMultipleScales (720, 1280) (45/100)
        (fun _ => Except.error "model failure")).error = none ∧
    (detectWithMultipleScales (720, 1280) (45/100)
        (fun _ => Except.error "model failure")).detectionCount = 0 :=
  ⟨rfl, rfl, rfl⟩

/-- C2 (amended): with a detector callback that raises on every tile of
every scale, no exception escapes either entry point and both report zero
detections; tiled detection records the error message in its result, but
multi-scale detection returns with *empty* diagnostics — `scale_results`
is empty and no `error` field is set, the per-scale error strings being
discarded. -/
theorem c2_always_failing_detector_degrades (imageShape : ℤ × ℤ)
    (iouThreshold : ℚ) (msg : ((ℤ × ℤ) × (ℤ × ℤ)) → String)
    (sliceWh overlapWh : ℤ × ℤ) (m : String) :
    detectSmallObjects imageShape sliceWh overlapWh (Except.error m) =
      degradedResult m ∧
    (detectSmallObjectsCall imageShape sliceWh overlapWh
      (Except.error m)).isOk = true ∧
    detectWithMultipleScales imageShape iouThreshold
        (fun c => Except.error (msg c)) =
      { detections := none, detectionCount := 0, scaleResults := [],
        error := none } :=
  ⟨rfl, rfl, rfl⟩

/-- C4: for image `1280×720` (`image_shape = (720, 1280)`),
`slice_wh = (640,640)`, `overlap_wh = (128,128)`, the step is `(512,512)`
and `_estimate_slice_count` computes a `3×2` grid — 3 columns, 2 rows, 6
slices in total; the spec-modelled scheduler lays out exactly those 6
tiles. -/
theorem c4_grid_1280x720 :
    (640 : ℤ) - 128 = 512 ∧
    axisSliceCount 1280 640 128 = 3 ∧
    axisSliceCount 720 640 128 = 2 ∧
    estimateSliceCountExc (720, 1280) (640, 640) (128, 128) = .ok 6 ∧
    (schedule (720, 1280) (640, 640) (128, 128)).length = 6 := by
  refine ⟨rfl, by decide, by decide, rfl, by decide⟩

/-- C9: `_merge_multi_scale_detections` maps a one-element list of
detection sets to that set unchanged (no NMS applied at all), and the
empty list to the empty set. -/
theorem c9_merge_singleton_identity (d : List Detection) (t : ℚ) :
    mergeMultiScaleDetections [d] t = d ∧
    mergeMultiScaleDetections [] t = [] :=
  ⟨rfl, rfl⟩

/-- C8 (counterexample): the claim says the adaptive selector raises
`InvalidConfig` whenever `H ≤ 0` or `W ≤ 0`.  The code performs no input
validation: at `(H, W) = (0, 0)` (and even at negative sizes)
`get_optimal_slice_config` simply falls into the low-resolution bucket and
returns normally, slice-count estimate included. -/
theorem c8_no_invalid_config_on_nonpositive :
    (getOptimalSliceConfig (0, 0)).sliceWh = (640, 640) ∧
    (getOptimalSliceConfig (0, 0)).overlapWh = (64, 64) ∧
    (getOptimalSliceConfig (0, 0)).estimatedSlices = .ok 1 ∧
    (getOptimalSliceConfig (-1080, -1920)).estimatedSlices = .ok 1 :=
  ⟨rfl, rfl, rfl, rfl⟩

/-- C8 (amended): the adaptive configuration selector is a pure function of
the image size mapping it into one of three resolution buckets with their
fixed recommended `(slice_wh, overlap_wh)` pairs, and it has no failure
mode at all — it performs no input validation, so non-positive sizes are
not rejected (they land in the low-resolution bucket); the config-manager
variant likewise returns one of its three configured pairs. -/
theorem c8_bucket_selector (h w : ℤ) :
    ((getOptimalSliceConfig (h, w)).sliceWh,
      (getOptimalSliceConfig (h, w)).overlapWh) ∈
      [((((640 : ℤ), (640 : ℤ))), (((64 : ℤ), (64 : ℤ)))),
        (((800, 800)), ((128, 128))), (((1024, 1024)), ((256, 256)))] ∧
    (getOptimalSliceConfig (h, w)).estimatedSlices.isOk = true ∧
    ∀ (rules : AdaptiveRules) (basic : BasicConfig),
      ((getAdaptiveConfig rules basic (h, w)).sliceWh,
        (getAdaptiveConfig rules basic (h, w)).overlapWh) ∈
      [(rules.lowSliceWh, rules.lowOverlapWh),
        (rules.medSliceWh, rules.medOverlapWh),
        (rules.highSliceWh, rules.highOverlapWh)] := by
  refine ⟨?_, ?_, ?_⟩
  · simp only [getOptimalSliceConfig]
    split_ifs <;> simp
  · simp only [getOptimalSliceConfig]
    split_ifs <;> simp [estimateSliceCountExc, Except.isOk, Except.toBool]
  · intro rules basic
    simp only [getAdaptiveConfig]
    split_ifs <;> simp

/-- When the axis dimension fits inside one slice and the step is positive,
the per-axis slice count of `_estimate_slice_count` is exactly 1. -/
theorem axisSliceCount_eq_one {dim sliceD overlapD : ℤ}
    (hstep : 0 < sliceD - overlapD) (hdim : dim ≤ sliceD) :
    axisSliceCount dim sliceD overlapD = 1 := by
  simp only [axisSliceCount]
  have hdivlt :
      (dim - overlapD + (sliceD - overlapD) - 1) / (sliceD - overlapD) < 2 :=
    (Int.ediv_lt_iff_lt_mul hstep).mpr (by omega)
  have hfd :
      (dim - overlapD + (sliceD - overlapD) - 1).fdiv (sliceD - overlapD) ≤ 1 := by
    rw [Int.fdiv_eq_ediv _ (le_of_lt hstep)]
    omega
  exact max_eq_left hfd

/-- C5: for every image size and every valid configuration whose slice is
at least as large as the image on both axes, `_estimate_slice_count`
computes exactly one slice and the (spec-modelled) scheduler produces
exactly one tile equal to the full image. -/
theorem c5_degenerate_single_tile (H W sW sH oW oH : ℕ)
    (hH : 0 < H) (hW : 0 < W) (hoW : oW < sW) (hoH : oH < sH)
    (hWs : W ≤ sW) (hHs : H ≤ sH) :
    estimateSliceCountExc ((H : ℤ), (W : ℤ)) ((sW : ℤ), (sH : ℤ))
        ((oW : ℤ), (oH : ℤ)) = .ok 1 ∧
    schedule (H, W) (sW, sH) (oW, oH) = [⟨0, 0, W, H⟩] := by
  constructor
  · simp only [estimateSliceCountExc]
    rw [if_neg (by omega)]
    rw [axisSliceCount_eq_one (by omega) (by omega),
      axisSliceCount_eq_one (by omega) (by omega)]
    rfl
  · simp only [schedule, axisTiles]
    rw [if_pos hHs, if_pos hWs]
    simp

/-- Witness for C5 at a concrete degenerate configuration: a `50×50` image
with `slice_wh = (64,64)`, `overlap_wh = (16,16)`. -/
theorem c5_degenerate_single_tile_witness :
    (0 < 50 ∧ 16 < 64 ∧ 50 ≤ 64) ∧
    estimateSliceCountExc ((50 : ℤ), (50 : ℤ)) ((64 : ℤ), (64 : ℤ))
        ((16 : ℤ), (16 : ℤ)) = .ok 1 ∧
    schedule (50, 50) (64, 64) (16, 16) = [⟨0, 0, 50, 50⟩] :=
  ⟨by omega,
    (c5_degenerate_single_tile 50 50 64 64 16 16 (by omega) (by omega)
      (by omega) (by omega) (by omega) (by omega)).1,
    (c5_degenerate_single_tile 50 50 64 64 16 16 (by omega) (by omega)
      (by omega) (by omega) (by omega) (by omega)).2⟩

/-- C6: the overlap-resolving merge is idempotent — merging the merged
output again with the same threshold and mode returns it unchanged, for
every detection set, threshold and mode. -/
theorem c6_merge_idempotent (S : List Detection) (t : ℚ) (m : OverlapMode) :
    merge (merge S t m) t m = merge S t m := by
  cases m with
  | NONE => rfl
  | CLASS_AWARE_NMS => exact nms_sort_idem _ S
  | CLASS_AGNOSTIC_NMS => exact nms_sort_idem _ S

/-- Class-aware NMS on a two-element set whose detections share a class,
overlap above the threshold, and are ordered by confidence keeps only the
higher-confidence one. -/
theorem withNms_pair (d1 d2 : Detection) (t : ℚ)
    (hcls : d1.classId = d2.classId) (hconf : d2.confidence ≤ d1.confidence)
    (hiou : t < iou d1 d2) : withNms [d1, d2] t = [d1] := by
  have hs : sortByConf [d1, d2] = [d1, d2] := by
    simp [sortByConf, List.insertionSort, List.orderedInsert, confGE, hconf]
  have hsup : suppresses .CLASS_AWARE_NMS t d1 d2 = true := by
    simp [suppresses, hcls, hiou]
  show nmsRun (suppresses .CLASS_AWARE_NMS t) (sortByConf [d1, d2]) = [d1]
  rw [hs]
  simp [nmsRun, nmsRunAux, List.filter, hsup]

/-- Flattening the non-empty per-scale sets gives the same detections as
flattening all of them. -/
theorem flatten_filter_nonempty (dl : List (List Detection)) :
    (dl.filter (fun d => !d.isEmpty)).flatten = dl.flatten := by
  induction dl with
  | nil => rfl
  | cons d rest ih =>
    cases d with
    | nil => simpa using ih
    | cons x xs => simpa using ih

/-- The collected non-empty per-scale sets are empty exactly when the
concatenation of all per-scale sets is. -/
theorem filter_nonempty_isEmpty (dl : List (List Detection)) :
    (dl.filter (fun d => !d.isEmpty)).isEmpty = dl.flatten.isEmpty := by
  induction dl with
  | nil => rfl
  | cons d rest ih =>
    cases d with
    | nil => simpa using ih
    | cons x xs => simp

/-- C3 (counterexample): the claim says multi-scale detection applies
exactly one global NMS merge at the caller-supplied `iou` and that no
suppressible detection survives to the output.  When only one scale
produces a detection set (the other scales' detectors raise),
`_merge_multi_scale_detections` takes its `len == 1` early return and
applies *no* merge: both detections of that scale survive in the final
output (count 2) even though a single global class-aware NMS at the
caller's threshold `0.45` would have suppressed one of them (their IoU is
`8/17 ≈ 0.47 > 0.45`). -/
theorem c3_single_scale_skips_merge :
    (detectWithMultipleScales (720, 1280) (45/100)
        (fun c => if c = ((320, 320), (64, 64)) then Except.ok [detA, detB]
          else Except.error "model failure")).detections =
      some [detA, detB] ∧
    (detectWithMultipleScales (720, 1280) (45/100)
        (fun c => if c = ((320, 320), (64, 64)) then Except.ok [detA, detB]
          else Except.error "model failure")).detectionCount = 2 ∧
    (withNms [detA, detB] (45/100)).length = 1 := by
  refine ⟨rfl, rfl, ?_⟩
  rw [withNms_pair detA detB _ rfl (by norm_num [detA, detB])
    (by norm_num [iou, interArea, boxArea, detA, detB])]
  rfl

/-- C3 (amended): `_merge_multi_scale_detections` concatenates the given
per-scale sets without re-merging any of them individually and applies one
single global class-aware NMS at the caller-supplied `iou` threshold —
*provided at least two per-scale sets are present*; a single present set
is returned without any merge (see the counterexample), and each per-scale
set has already been overlap-filtered inside the per-scale slicer at the
wrapper's configured threshold before reaching this function. -/
theorem c3_single_global_nms (dl : List (List Detection)) (t : ℚ)
    (h : 2 ≤ dl.length) :
    mergeMultiScaleDetections dl t =
      if dl.flatten.isEmpty then [] else withNms dl.flatten t := by
  cases dl with
  | nil => simp at h
  | cons a tl =>
    cases tl with
    | nil => simp at h
    | cons b rest =>
      show (let allXyxy := (a :: b :: rest).filter (fun d => !d.isEmpty)
        if allXyxy.isEmpty then [] else withNms allXyxy.flatten t) = _
      simp only [filter_nonempty_isEmpty, flatten_filter_nonempty]

/-- Witness for C3 (amended): two singleton per-scale sets. -/
theorem c3_single_global_nms_witness :
    2 ≤ ([[detA], [detB]] : List (List Detection)).length ∧
    mergeMultiScaleDetections [[detA], [detB]] (45/100) =
      if ([[detA], [detB]] : List (List Detection)).flatten.isEmpty then []
      else withNms ([[detA], [detB]] : List (List Detection)).flatten (45/100) :=
  ⟨by simp, c3_single_global_nms [[detA], [detB]] (45/100) (by simp)⟩

/-- C7: two detections of the same object coming from two different scale
configurations — same class, overlapping with IoU above the merge
threshold, ordered by confidence — collapse to exactly one detection (the
higher-confidence one) in the final multi-scale output. -/
theorem c7_cross_scale_dedup (imageShape : ℤ × ℤ) (t : ℚ) (d1 d2 : Detection)
    (hcls : d1.classId = d2.classId) (hconf : d2.confidence ≤ d1.confidence)
    (hiou : t < iou d1 d2) :
    (detectWithMultipleScales imageShape t
        (fun c => if c = ((320, 320), (64, 64)) then Except.ok [d1]
          else if c = ((640, 640), (128, 128)) then Except.ok [d2]
          else Except.ok [])).detections = some [d1] ∧
    (detectWithMultipleScales imageShape t
        (fun c => if c = ((320, 320), (64, 64)) then Except.ok [d1]
          else if c = ((640, 640), (128, 128)) then Except.ok [d2]
          else Except.ok [])).detectionCount = 1 := by
  have hm : withNms [d1, d2] t = [d1] := withNms_pair d1 d2 t hcls hconf hiou
  constructor
  · show some (withNms [d1, d2] t) = some [d1]
    rw [hm]
  · show (withNms [d1, d2] t).length = 1
    rw [hm]
    rfl

/-- Witness for C7 at the concrete pair `detA`, `detB` (IoU `8/17`) and
threshold `0.45`. -/
theorem c7_cross_scale_dedup_witness :
    (detA.classId = detB.classId ∧ detB.confidence ≤ detA.confidence ∧
      (45 : ℚ)/100 < iou detA detB) ∧
    (detectWithMultipleScales (720, 1280) (45/100)
        (fun c => if c = ((320, 320), (64, 64)) then Except.ok [detA]
          else if c = ((640, 640), (128, 128)) then Except.ok [detB]
          else Except.ok [])).detections = some [detA] ∧
    (detectWithMultipleScales (720, 1280) (45/100)
        (fun c => if c = ((320, 320), (64, 64)) then Except.ok [detA]
          else if c = ((640, 640), (128, 128)) then Except.ok [detB]
          else Except.ok [])).detectionCount = 1 :=
  ⟨⟨rfl, by norm_num [detA, detB],
      by norm_num [iou, interArea, boxArea, detA, detB]⟩,
    (c7_cross_scale_dedup (720, 1280) (45/100) detA detB rfl
      (by norm_num [detA, detB])
      (by norm_num [iou, interArea, boxArea, detA, detB])).1,
    (c7_cross_scale_dedup (720, 1280) (45/100) detA detB rfl
      (by norm_num [detA, detB])
      (by norm_num [iou, interArea, boxArea, detA, detB])).2⟩

/-- C10: `get_adaptive_config` chooses its bucket from the image width
alone — two shapes with equal width and arbitrary heights receive the same
`slice_wh` and `overlap_wh`, for every configured rule set and basic
thresholds. -/
theorem c10_adaptive_width_only (rules : AdaptiveRules) (basic : BasicConfig)
    (h1 h2 w : ℤ) :
    (getAdaptiveConfig rules basic (h1, w)).sliceWh =
      (getAdaptiveConfig rules basic (h2, w)).sliceWh ∧
    (getAdaptiveConfig rules basic (h1, w)).overlapWh =
      (getAdaptiveConfig rules basic (h2, w)).overlapWh := by
  simp only [getAdaptiveConfig]
  simp

end VisionPro
